import Mathlib

/-!
Shallow embedding of `BAC0/core/devices/Points.py` (class `Point` and its
variants `NumericPoint`, `BooleanPoint`, `EnumPoint`).

Modelling choices:
* The device/network collaborators are external; they are modelled as
  parameters (`Device`, `Network`).  A network entry point returns
  `Option E`: `none` means the call returned normally, `some e` means it
  raised the collaborator error `e`.  `Device.read` returns `Except E V`.
* Mutable point state (the two history lists, the `simulated` /
  `overridden` flags) is threaded explicitly as a `PState` value.
  `datetime.now()` is modelled by a monotone `clock : Nat` counter that
  each append consumes.  Commands handed to the network collaborator are
  recorded in the ghost field `sent` so that "no command is sent" is a
  statement about the state.
* A Python operation that can raise returns `PState V × Option (PErr E)`:
  the state holds every mutation performed before the raise point, and
  `some err` is the propagated exception (`none` = normal return).
  Accessors that produce a value return `PState V × Except E V`.
* Python floats reached by `float(priority)` are modelled as `ℚ`; a
  priority argument is either the default `''`, a value whose `float()`
  conversion yields `q` and whose `str()` is `disp`, or a value on which
  `float()` raises (`nonNumeric`).  Both the explicit
  `raise ValueError(...)` and the `ValueError` escaping from `float()`
  are the spec's `InvalidPriority`.
* Python list indexing `xs[i]` (which accepts negative indices, wrapping
  from the end) is `pyGetElem`.
-/

namespace BAC0

/-- Which collaborator entry point received a command string:
`network.write`, `network.sim` or `network.release` in the source. -/
inductive Command where
  | writeCmd (s : String)
  | simCmd (s : String)
  | releaseCmd (s : String)
deriving DecidableEq, Repr

/-- Errors an operation of the point can raise: `invalidPriority` is the
`ValueError` of `Point.write`, `indexOutOfRange` the `IndexError` of
Python list indexing in `EnumPoint.enumValue`, and `collab e` an error
raised by the device/network collaborator, propagated unchanged. -/
inductive PErr (E : Type) where
  | invalidPriority
  | indexOutOfRange
  | collab (e : E)
deriving DecidableEq, Repr

/-- The network collaborator (`device.network` in the source): each entry
point takes the formatted command string; `none` models a normal return,
`some e` a raised error. -/
structure Network (E : Type) where
  writeRes : String → Option E
  simRes : String → Option E
  releaseRes : String → Option E

/-- The device collaborator: an address, a read-by-name entry point
(which may fail), and the network collaborator. -/
structure Device (V E : Type) where
  addr : String
  read : String → Except E V
  network : Network E

/-- The immutable identity/metadata of a point (`self.properties` fields
that are never reassigned after `__init__`; the mutable `simulated` and
`overridden` flags live in `PState`). -/
structure Props (V E : Type) where
  device : Device V E
  name : String
  type : String
  address : String
  description : String
  units_state : List String

/-- The mutable state of one point: the two aligned history lists of
`self._history` (timestamps as clock ticks, values as `Option V` since the
seed `presentValue` may be Python `None`), the two control flags, the
clock modelling `datetime.now()`, and the ghost record of commands sent
to the collaborator. -/
structure PState (V : Type) where
  histTimestamp : List Nat
  histValue : List (Option V)
  simulated : Bool
  overridden : Bool
  clock : Nat
  sent : List Command
deriving DecidableEq, Repr

/-- A Python value passed as the `priority` argument of `Point.write`:
the default `''`, a value whose `float()` is `q` and `str()` is `disp`,
or a value on which `float()` raises `ValueError`. -/
inductive PyPriority where
  | empty
  | ofNum (q : ℚ) (disp : String)
  | nonNumeric (disp : String)
deriving DecidableEq, Repr

/-- Python `xs[i]`: a negative index wraps from the end
(`xs[i]` is `xs[len + i]` for `i < 0`); `none` is `IndexError`. -/
def pyGetElem {α : Type} (l : List α) (i : Int) : Option α :=
  let j : Int := if i < 0 then (l.length : Int) + i else i
  if 0 ≤ j then l[j.toNat]? else none

/-- `Point.__init__`: seed the history with one sample
(`presentValue`, construction timestamp) and clear both flags. -/
def Point.init {V : Type} (presentValue : Option V) (clock : Nat) : PState V :=
  { histTimestamp := [clock]
    histValue := [presentValue]
    simulated := false
    overridden := false
    clock := clock + 1
    sent := [] }

/-- `Point.value`: read through the device collaborator; on success
append `(now, res)` to the history and return the raw result; a read
error propagates before any mutation. -/
def Point.value {V E : Type} (p : Props V E) (s : PState V) :
    PState V × Except E V :=
  match p.device.read p.name with
  | .error e => (s, .error e)
  | .ok res =>
    ({ s with histTimestamp := s.histTimestamp ++ [s.clock]
              histValue := s.histValue ++ [some res]
              clock := s.clock + 1 }, .ok res)

/-- `Point.lastValue`: last appended history value, no new read. -/
def Point.lastValue {V : Type} (s : PState V) : Option (Option V) :=
  s.histValue.getLast?

/-- `Point.history`: the (timestamp, value) series built from the two
history lists (`pd.Series(value, index=timestamp)`); a read-only
projection, so the state comes back unchanged. -/
def Point.history {V : Type} (s : PState V) :
    List (Nat × Option V) × PState V :=
  (s.histTimestamp.zip s.histValue, s)

/-- The priority validation of `Point.write`: `''` yields an empty
suffix; a numeric priority with `1 <= float(priority) <= 16` yields
`'- %s' % priority`; anything else raises (`.error ()`). -/
def prioritySuffix : PyPriority → Except Unit String
  | .empty => .ok ""
  | .ofNum q disp => if 1 ≤ q ∧ q ≤ 16 then .ok ("- " ++ disp) else .error ()
  | .nonNumeric _ => .error ()

/-- The `'%s %s %s %s %s %s'` command string of `Point.write`. -/
def writeCommandString {V E : Type} (p : Props V E)
    (prop value suffix : String) : String :=
  p.device.addr ++ " " ++ p.type ++ " " ++ p.address ++ " " ++ prop
    ++ " " ++ value ++ " " ++ suffix

/-- The `'%s %s %s presentValue %s'` command string of `Point.sim`. -/
def simCommandString {V E : Type} (p : Props V E) (value : String) : String :=
  p.device.addr ++ " " ++ p.type ++ " " ++ p.address
    ++ " presentValue " ++ value

/-- The `'%s %s %s'` command string of `Point.release`. -/
def releaseCommandString {V E : Type} (p : Props V E) : String :=
  p.device.addr ++ " " ++ p.type ++ " " ++ p.address

/-- `Point.write`: validate the priority (raising before any command is
sent when it is invalid), format the command, hand it to
`device.network.write`. -/
def Point.write {V E : Type} (p : Props V E) (value prop : String)
    (priority : PyPriority) (s : PState V) : PState V × Option (PErr E) :=
  match prioritySuffix priority with
  | .error _ => (s, some .invalidPriority)
  | .ok suffix =>
    let cmd := writeCommandString p prop value suffix
    let s' := { s with sent := s.sent ++ [Command.writeCmd cmd] }
    match p.device.network.writeRes cmd with
    | some e => (s', some (.collab e))
    | none => (s', none)

/-- `Point.default`: write to `relinquishDefault` instead. -/
def Point.defaultWrite {V E : Type} (p : Props V E) (value : String)
    (s : PState V) : PState V × Option (PErr E) :=
  Point.write p value "relinquishDefault" .empty s

/-- `Point.sim`: send the simulate command; only after a normal return
set `simulated = True`. -/
def Point.sim {V E : Type} (p : Props V E) (value : String) (s : PState V) :
    PState V × Option (PErr E) :=
  let cmd := simCommandString p value
  let s' := { s with sent := s.sent ++ [Command.simCmd cmd] }
  match p.device.network.simRes cmd with
  | some e => (s', some (.collab e))
  | none => ({ s' with simulated := true }, none)

/-- `Point.release`: send the release command; only after a normal
return set `simulated = False`. -/
def Point.release {V E : Type} (p : Props V E) (s : PState V) :
    PState V × Option (PErr E) :=
  let cmd := releaseCommandString p
  let s' := { s with sent := s.sent ++ [Command.releaseCmd cmd] }
  match p.device.network.releaseRes cmd with
  | some e => (s', some (.collab e))
  | none => ({ s' with simulated := false }, none)

/-- `Point.ovr`: `self.write(value, priority=8)`, then on normal return
set `overridden = True`. -/
def Point.ovr {V E : Type} (p : Props V E) (value : String) (s : PState V) :
    PState V × Option (PErr E) :=
  match Point.write p value "presentValue" (.ofNum 8 "8") s with
  | (s', some e) => (s', some e)
  | (s', none) => ({ s' with overridden := true }, none)

/-- `Point.auto`: `self.write('null', priority=8)`, then on normal
return set `overridden = False`. -/
def Point.auto {V E : Type} (p : Props V E) (s : PState V) :
    PState V × Option (PErr E) :=
  match Point.write p "null" "presentValue" (.ofNum 8 "8") s with
  | (s', some e) => (s', some e)
  | (s', none) => ({ s' with overridden := false }, none)

/-- Whether the first list is an initial segment of the second. -/
def listLeads : List Char → List Char → Bool
  | [], _ => true
  | _ :: _, [] => false
  | a :: as, b :: bs => a == b && listLeads as bs

/-- Whether the needle occurs as a contiguous sublist of the haystack. -/
def listHasSub (needle : List Char) : List Char → Bool
  | [] => needle.isEmpty
  | c :: t => listLeads needle (c :: t) || listHasSub needle t

/-- Python `needle in hay`: the needle occurs as a substring. -/
def strContains (hay needle : String) : Bool :=
  listHasSub needle.data hay.data

/-- `Point._setitem`: type-tag dispatch — `'Value' in type` writes,
else `'Output' in type` overrides, else simulates. -/
def Point.setitem {V E : Type} (p : Props V E) (value : String)
    (s : PState V) : PState V × Option (PErr E) :=
  if strContains p.type "Value" then
    Point.write p value "presentValue" .empty s
  else if strContains p.type "Output" then
    Point.ovr p value s
  else
    Point.sim p value s

/-- The extra mutable attributes of `BooleanPoint`:
`self._key` and `self._boolKey`, unset before the first read. -/
structure BState (E : Type) where
  base : PState String
  key : Option Nat
  boolKey : Option Bool
deriving DecidableEq, Repr

/-- `BooleanPoint.value`: read-through and history append as in the
base accessor, additionally caching `_key`/`_boolKey`; the cached
boolean is `False` exactly on the raw result `'inactive'`. -/
def BooleanPoint.value {E : Type} (p : Props String E) (s : BState E) :
    BState E × Except E String :=
  match p.device.read p.name with
  | .error e => (s, .error e)
  | .ok res =>
    let b := { s.base with
                histTimestamp := s.base.histTimestamp ++ [s.base.clock]
                histValue := s.base.histValue ++ [some res]
                clock := s.base.clock + 1 }
    if res = "inactive" then
      ({ base := b, key := some 0, boolKey := some false }, .ok res)
    else
      ({ base := b, key := some 1, boolKey := some true }, .ok res)

/-- `BooleanPoint.boolValue`: force a fresh read through `value`, then
recompute and return the cached boolean from `res == 'active'`. -/
def BooleanPoint.boolValue {E : Type} (p : Props String E) (s : BState E) :
    BState E × Except E Bool :=
  match BooleanPoint.value p s with
  | (s', .error e) => (s', .error e)
  | (s', .ok res) =>
    if res = "active" then
      ({ s' with key := some 1, boolKey := some true }, .ok true)
    else
      ({ s' with key := some 0, boolKey := some false }, .ok false)

/-- `EnumPoint.enumValue`: read the raw 1-based index through `value`,
then `units_state[int(value) - 1]` with Python list indexing. -/
def EnumPoint.enumValue {E : Type} (p : Props Int E) (s : PState Int) :
    PState Int × Except (PErr E) String :=
  match Point.value p s with
  | (s', .error e) => (s', .error (.collab e))
  | (s', .ok v) =>
    match pyGetElem p.units_state (v - 1) with
    | none => (s', .error .indexOutOfRange)
    | some lbl => (s', .ok lbl)

/-! Concrete collaborators used as witnesses/counterexample inputs. -/

/-- A network whose entry points all return normally. -/
def okNetwork : Network Unit :=
  { writeRes := fun _ => none, simRes := fun _ => none
    releaseRes := fun _ => none }

/-- A network whose entry points all raise `()`. -/
def failNetwork : Network Unit :=
  { writeRes := fun _ => some (), simRes := fun _ => some ()
    releaseRes := fun _ => some () }

/-- A device whose reads always return the integer `v`. -/
def intDevice (v : Int) : Device Int Unit :=
  { addr := "2:5", read := fun _ => .ok v, network := okNetwork }

/-- A device whose reads always return the string `r`. -/
def strDevice (r : String) : Device String Unit :=
  { addr := "2:5", read := fun _ => .ok r, network := okNetwork }

/-- A string-valued device whose network always raises. -/
def strFailDevice (r : String) : Device String Unit :=
  { addr := "2:5", read := fun _ => .ok r, network := failNetwork }

/-- Concrete properties of an analog-value test point. -/
def avProps : Props String Unit :=
  { device := strDevice "21.5", name := "temp", type := "analogValue"
    address := "1", description := "", units_state := [] }

/-- Concrete properties of a binary test point reading `r`. -/
def binProps (r : String) : Props String Unit :=
  { device := strDevice r, name := "fan", type := "binaryInput"
    address := "2", description := "", units_state := [] }

/-- Concrete properties of a multi-state test point reading index `v`. -/
def msProps (v : Int) : Props Int Unit :=
  { device := intDevice v, name := "mode", type := "multiStateValue"
    address := "3", description := "", units_state := ["Off", "Low", "High"] }

/-- A test point with a network that always raises. -/
def failProps : Props String Unit :=
  { device := strFailDevice "21.5", name := "temp", type := "analogOutput"
    address := "1", description := "", units_state := [] }

/-- `BooleanPoint.__init__` is just `Point.__init__`: the cached
`_key`/`_boolKey` attributes do not exist yet. -/
def BooleanPoint.init {E : Type} (presentValue : Option String) (clock : Nat) :
    BState E :=
  { base := Point.init presentValue clock, key := none, boolKey := none }

/-- The history of `s'` extends that of `s`: the two sequences of `s'`
are aligned (equal length) and each equals the corresponding sequence of
`s` with entries appended at the end only. -/
def histExtends {V : Type} (s s' : PState V) : Prop :=
  s'.histTimestamp.length = s'.histValue.length ∧
  (∃ t, s'.histTimestamp = s.histTimestamp ++ t) ∧
  (∃ u, s'.histValue = s.histValue ++ u)

/-! Theorems. -/

/-- C2: the write-routing policy `_setitem` dispatches three ways on the
point's type tag: a tag containing "Value" goes to the plain `write` path
(no priority, no sim), else a tag containing "Output" goes to the
priority-8 override path `ovr`, and any other tag to the simulate path
`sim`. -/
theorem setitem_routing {V E : Type} (p : Props V E) (v : String)
    (s : PState V) :
    (strContains p.type "Value" = true →
      Point.setitem p v s = Point.write p v "presentValue" .empty s) ∧
    (strContains p.type "Value" = false → strContains p.type "Output" = true →
      Point.setitem p v s = Point.ovr p v s) ∧
    (strContains p.type "Value" = false → strContains p.type "Output" = false →
      Point.setitem p v s = Point.sim p v s) := by
  refine ⟨fun h => ?_, fun h1 h2 => ?_, fun h1 h2 => ?_⟩
  · simp [Point.setitem, h]
  · simp [Point.setitem, h1, h2]
  · simp [Point.setitem, h1, h2]

/-- Witness for C2: a concrete analog-value point takes the plain write
path. -/
theorem setitem_routing_witness :
    Point.setitem avProps "22" (Point.init none 0) =
      Point.write avProps "22" "presentValue" .empty (Point.init none 0) :=
  (setitem_routing avProps "22" (Point.init none 0)).1 (by decide)

/-- C9: the `history` accessor is a read-only projection: it leaves the
point state (history and flags) unchanged, and calling it again without
an intervening read returns the identical sequence. -/
theorem history_idempotent {V : Type} (s : PState V) :
    (Point.history s).2 = s ∧
    (Point.history ((Point.history s).2)).1 = (Point.history s).1 :=
  ⟨rfl, rfl⟩

/-- C3: a successful read through the `value` accessor returns the
collaborator's raw result, appends exactly that value as one new history
entry, and grows both history sequences by exactly one — for the base
accessor and for the `BooleanPoint` override alike. -/
theorem value_read_appends {V E F : Type} (p : Props V E) (s : PState V)
    (res : V) (bp : Props String F) (bs : BState F) (bres : String)
    (h : p.device.read p.name = Except.ok res)
    (hb : bp.device.read bp.name = Except.ok bres) :
    ((Point.value p s).2 = Except.ok res ∧
     (Point.value p s).1.histValue = s.histValue ++ [some res] ∧
     (Point.value p s).1.histTimestamp.length = s.histTimestamp.length + 1 ∧
     (Point.value p s).1.histValue.length = s.histValue.length + 1) ∧
    ((BooleanPoint.value bp bs).2 = Except.ok bres ∧
     (BooleanPoint.value bp bs).1.base.histValue
        = bs.base.histValue ++ [some bres] ∧
     (BooleanPoint.value bp bs).1.base.histTimestamp.length
        = bs.base.histTimestamp.length + 1 ∧
     (BooleanPoint.value bp bs).1.base.histValue.length
        = bs.base.histValue.length + 1) := by
  constructor
  · simp [Point.value, h]
  · by_cases hres : bres = "inactive" <;>
      simp [BooleanPoint.value, hb, hres]

/-- Witness for C3 at a concrete device returning "21.5". -/
theorem value_read_appends_witness :
    (Point.value avProps (Point.init none 0)).2 = Except.ok "21.5" :=
  (value_read_appends avProps (Point.init none 0) "21.5" (binProps "active")
    (BooleanPoint.init none 0) "active" rfl rfl).1.1

/-- Priority 8, as used by `ovr`/`auto`, passes validation. -/
theorem prioritySuffix_eight :
    prioritySuffix (PyPriority.ofNum 8 "8") = Except.ok "- 8" := by
  norm_num [prioritySuffix]
  rfl

/-- C7: successful control operations set the flags as specified, from
any state: `sim` sets `simulated` and leaves `overridden` untouched (so
both flags can be true at once, e.g. `sim` while overridden), `release`
clears `simulated`, `ovr` sends the write command for the value at
priority 8 and sets `overridden`, `auto` sends the write command for the
"null" sentinel at priority 8 and clears `overridden`; no operation is
blocked by the current state. -/
theorem control_state_ops {V E : Type} (p : Props V E) (v : String)
    (s : PState V) :
    ((Point.sim p v s).2 = none →
      (Point.sim p v s).1.simulated = true ∧
      (Point.sim p v s).1.overridden = s.overridden) ∧
    ((Point.release p s).2 = none →
      (Point.release p s).1.simulated = false ∧
      (Point.release p s).1.overridden = s.overridden) ∧
    ((Point.ovr p v s).2 = none →
      (Point.ovr p v s).1.overridden = true ∧
      (Point.ovr p v s).1.simulated = s.simulated ∧
      (Point.ovr p v s).1.sent = s.sent ++
        [Command.writeCmd (writeCommandString p "presentValue" v "- 8")]) ∧
    ((Point.auto p s).2 = none →
      (Point.auto p s).1.overridden = false ∧
      (Point.auto p s).1.simulated = s.simulated ∧
      (Point.auto p s).1.sent = s.sent ++
        [Command.writeCmd (writeCommandString p "presentValue" "null" "- 8")]) ∧
    (s.overridden = true → (Point.sim p v s).2 = none →
      (Point.sim p v s).1.simulated = true ∧
      (Point.sim p v s).1.overridden = true) := by
  refine ⟨?_, ?_, ?_, ?_, ?_⟩
  · intro h
    cases hn : p.device.network.simRes (simCommandString p v) with
    | none => simp [Point.sim, hn]
    | some e => simp [Point.sim, hn] at h
  · intro h
    cases hn : p.device.network.releaseRes (releaseCommandString p) with
    | none => simp [Point.release, hn]
    | some e => simp [Point.release, hn] at h
  · intro h
    cases hn : p.device.network.writeRes
        (writeCommandString p "presentValue" v "- 8") with
    | none => simp [Point.ovr, Point.write, prioritySuffix_eight, hn]
    | some e => simp [Point.ovr, Point.write, prioritySuffix_eight, hn] at h
  · intro h
    cases hn : p.device.network.writeRes
        (writeCommandString p "presentValue" "null" "- 8") with
    | none => simp [Point.auto, Point.write, prioritySuffix_eight, hn]
    | some e => simp [Point.auto, Point.write, prioritySuffix_eight, hn] at h
  · intro hov h
    cases hn : p.device.network.simRes (simCommandString p v) with
    | none => simp [Point.sim, hn, hov]
    | some e => simp [Point.sim, hn] at h

/-- Witness for C7: a concrete simulate call sets the flag. -/
theorem control_state_ops_witness :
    (Point.sim avProps "20" (Point.init none 0)).1.simulated = true :=
  ((control_state_ops avProps "20" (Point.init none 0)).1 rfl).1

/-- C10: when the collaborator call raises, the flag assignment placed
after it is never reached: the error propagates unchanged and both
`simulated` and `overridden` keep their previous values, for each of
`sim`, `release`, `ovr` and `auto`. -/
theorem flags_atomic_on_failure {V E : Type} (p : Props V E) (v : String)
    (s : PState V) (e : E) :
    (p.device.network.simRes (simCommandString p v) = some e →
      (Point.sim p v s).2 = some (PErr.collab e) ∧
      (Point.sim p v s).1.simulated = s.simulated ∧
      (Point.sim p v s).1.overridden = s.overridden) ∧
    (p.device.network.releaseRes (releaseCommandString p) = some e →
      (Point.release p s).2 = some (PErr.collab e) ∧
      (Point.release p s).1.simulated = s.simulated ∧
      (Point.release p s).1.overridden = s.overridden) ∧
    (p.device.network.writeRes
        (writeCommandString p "presentValue" v "- 8") = some e →
      (Point.ovr p v s).2 = some (PErr.collab e) ∧
      (Point.ovr p v s).1.simulated = s.simulated ∧
      (Point.ovr p v s).1.overridden = s.overridden) ∧
    (p.device.network.writeRes
        (writeCommandString p "presentValue" "null" "- 8") = some e →
      (Point.auto p s).2 = some (PErr.collab e) ∧
      (Point.auto p s).1.simulated = s.simulated ∧
      (Point.auto p s).1.overridden = s.overridden) := by
  refine ⟨fun h => ?_, fun h => ?_, fun h => ?_, fun h => ?_⟩
  · simp [Point.sim, h]
  · simp [Point.release, h]
  · simp [Point.ovr, Point.write, prioritySuffix_eight, h]
  · simp [Point.auto, Point.write, prioritySuffix_eight, h]

/-- Witness for C10: with an always-raising network, `sim` propagates the
error and leaves the flag clear. -/
theorem flags_atomic_on_failure_witness :
    (Point.sim failProps "20" (Point.init none 0)).2
        = some (PErr.collab ()) ∧
    (Point.sim failProps "20" (Point.init none 0)).1.simulated
        = (Point.init none 0 : PState String).simulated :=
  ⟨((flags_atomic_on_failure failProps "20" (Point.init none 0) ()).1 rfl).1,
   ((flags_atomic_on_failure failProps "20" (Point.init none 0) ()).1 rfl).2.1⟩

/-- C1 counterexample: priority 8.5 is numeric but not an integer (its
denominator is 2), yet `write` succeeds and one command is sent — the
claim's integrality requirement does not hold on the code. -/
theorem write_priority_counterexample :
    (Point.write avProps "21" "presentValue"
        (PyPriority.ofNum (mkRat 17 2) "8.5") (Point.init none 0)).2
      = none ∧
    (Point.write avProps "21" "presentValue"
        (PyPriority.ofNum (mkRat 17 2) "8.5")
        (Point.init none 0)).1.sent.length = 1 ∧
    (mkRat 17 2).den ≠ 1 := by
  refine ⟨by decide, by decide, by decide⟩

/-- C1 (amended): an explicit priority is accepted iff it is numeric
(its float conversion succeeds) with 1 ≤ float(p) ≤ 16 — integrality is
not required; a non-numeric or out-of-range priority raises
`InvalidPriority` with the state unchanged (no command sent), while an
accepted priority sends exactly the formatted command and never raises
`InvalidPriority`. -/
theorem write_priority_amended {V E : Type} (p : Props V E) (v prop : String)
    (q : ℚ) (disp t : String) (s : PState V) :
    (¬(1 ≤ q ∧ q ≤ 16) →
      Point.write p v prop (PyPriority.ofNum q disp) s
        = (s, some PErr.invalidPriority)) ∧
    (Point.write p v prop (PyPriority.nonNumeric t) s
        = (s, some PErr.invalidPriority)) ∧
    (1 ≤ q ∧ q ≤ 16 →
      (Point.write p v prop (PyPriority.ofNum q disp) s).1.sent
          = s.sent ++
            [Command.writeCmd (writeCommandString p prop v ("- " ++ disp))] ∧
      (Point.write p v prop (PyPriority.ofNum q disp) s).2
          ≠ some PErr.invalidPriority) := by
  refine ⟨fun h => ?_, ?_, fun h => ?_⟩
  · simp [Point.write, prioritySuffix, h]
  · simp [Point.write, prioritySuffix]
  · have hp : prioritySuffix (PyPriority.ofNum q disp)
        = Except.ok ("- " ++ disp) := by
      simp [prioritySuffix, h]
    cases hn : p.device.network.writeRes
        (writeCommandString p prop v ("- " ++ disp)) with
    | some e => simp [Point.write, hp, hn]
    | none => simp [Point.write, hp, hn]

/-- Witness for C1 at the valid non-default priority 8. -/
theorem write_priority_amended_witness :
    (Point.write avProps "21" "presentValue" (PyPriority.ofNum 8 "8")
        (Point.init none 0)).2 ≠ some PErr.invalidPriority :=
  ((write_priority_amended avProps "21" "presentValue" 8 "8" "x"
      (Point.init none 0)).2.2 (by norm_num)).2

/-- C5 counterexample: a raw read of "garbage" — different from "active"
— still leaves the cached boolean true: the cache is not
`res == "active"`. -/
theorem boolKey_cache_counterexample :
    (BooleanPoint.value (binProps "garbage")
        (BooleanPoint.init none 0)).1.boolKey = some true ∧
    "garbage" ≠ "active" :=
  ⟨rfl, by decide⟩

/-- C5 (amended): the boolean cached by a successful `BooleanPoint.value`
read is false on the raw result "inactive" and true on every other raw
result — i.e. it is `res != "inactive"`, not `res == "active"`. -/
theorem boolKey_cache_amended {E : Type} (p : Props String E) (s : BState E)
    (res : String) (h : p.device.read p.name = Except.ok res) :
    (BooleanPoint.value p s).1.boolKey
      = some (if res = "inactive" then false else true) := by
  by_cases h1 : res = "inactive" <;> simp [BooleanPoint.value, h, h1]

/-- Witness for C5 on the raw read "off". -/
theorem boolKey_cache_amended_witness :
    (BooleanPoint.value (binProps "off")
        (BooleanPoint.init none 0)).1.boolKey = some true := by
  rw [boolKey_cache_amended (binProps "off") (BooleanPoint.init none 0)
    "off" rfl]
  rfl

/-- C6: `boolValue` forces a fresh read through `value` (history grows by
one) and returns true exactly when the raw read equals "active"; any
other raw value yields false. -/
theorem boolValue_active {E : Type} (p : Props String E) (s : BState E)
    (res : String) (h : p.device.read p.name = Except.ok res) :
    (BooleanPoint.boolValue p s).2
        = Except.ok (if res = "active" then true else false) ∧
    (BooleanPoint.boolValue p s).1.base.histValue.length
        = s.base.histValue.length + 1 := by
  by_cases h2 : res = "active"
  · subst h2
    simp [BooleanPoint.boolValue, BooleanPoint.value, h]
  · by_cases h1 : res = "inactive"
    · subst h1
      simp [BooleanPoint.boolValue, BooleanPoint.value, h]
    · simp [BooleanPoint.boolValue, BooleanPoint.value, h, h1, h2]

/-- Witness for C6 on the raw read "active". -/
theorem boolValue_active_witness :
    (BooleanPoint.boolValue (binProps "active")
        (BooleanPoint.init none 0)).2
      = Except.ok (if "active" = "active" then true else false) :=
  (boolValue_active (binProps "active") (BooleanPoint.init none 0)
    "active" rfl).1

/-- Python indexing at a nonnegative index is plain list lookup. -/
theorem pyGetElem_nonneg {α : Type} (l : List α) (i : Int) (h : 0 ≤ i) :
    pyGetElem l i = l[i.toNat]? := by
  have h1 : ¬ i < 0 := by omega
  simp [pyGetElem, h1, h]

/-- Python indexing at a negative index wraps from the end. -/
theorem pyGetElem_neg {α : Type} (l : List α) (i : Int) (h : i < 0) :
    pyGetElem l i =
      (if 0 ≤ (l.length : Int) + i
        then l[((l.length : Int) + i).toNat]? else none) := by
  simp [pyGetElem, h]

/-- C4 counterexample: with state table ["Off", "Low", "High"] and a raw
read of 0, `enumValue` does not fail: `int(value) - 1` is `-1` and Python
negative indexing wraps around, returning the last label "High". -/
theorem enumValue_zero_counterexample :
    (EnumPoint.enumValue (msProps 0) (Point.init none 0)).2
        = Except.ok "High" ∧
    (EnumPoint.enumValue (msProps 0) (Point.init none 0)).2
        ≠ Except.error PErr.indexOutOfRange := by
  have h1 : (EnumPoint.enumValue (msProps 0) (Point.init none 0)).2
      = Except.ok "High" := rfl
  refine ⟨h1, ?_⟩
  rw [h1]
  simp

/-- C4 (amended): on a raw read index with 1 ≤ index ≤ size,
`enumValue` returns `states[index - 1]`; an index greater than the size
fails with `IndexOutOfRange`; but an index of 0 on a nonempty table does
not fail — Python negative indexing wraps and it returns the last
label. -/
theorem enumValue_amended {E : Type} (p : Props Int E) (s : PState Int)
    (idx : Int) (h : p.device.read p.name = Except.ok idx) :
    (1 ≤ idx → idx ≤ (p.units_state.length : Int) →
      ∃ lbl, p.units_state[(idx - 1).toNat]? = some lbl ∧
        (EnumPoint.enumValue p s).2 = Except.ok lbl) ∧
    ((p.units_state.length : Int) < idx →
      (EnumPoint.enumValue p s).2 = Except.error PErr.indexOutOfRange) ∧
    (idx = 0 → p.units_state ≠ [] →
      ∃ lbl, p.units_state.getLast? = some lbl ∧
        (EnumPoint.enumValue p s).2 = Except.ok lbl) := by
  refine ⟨fun hlo hhi => ?_, fun hgt => ?_, fun h0 hne => ?_⟩
  · have hge : (0 : Int) ≤ idx - 1 := by omega
    have hlt : (idx - 1).toNat < p.units_state.length := by omega
    obtain ⟨lbl, hlbl⟩ : ∃ l2, p.units_state[(idx - 1).toNat]? = some l2 :=
      ⟨_, List.getElem?_eq_getElem hlt⟩
    have hpg : pyGetElem p.units_state (idx - 1) = some lbl := by
      rw [pyGetElem_nonneg _ _ hge, hlbl]
    exact ⟨lbl, hlbl, by simp [EnumPoint.enumValue, Point.value, h, hpg]⟩
  · have hge : (0 : Int) ≤ idx - 1 := by omega
    have hlen : p.units_state.length ≤ (idx - 1).toNat := by omega
    have hpg : pyGetElem p.units_state (idx - 1) = none := by
      rw [pyGetElem_nonneg _ _ hge, List.getElem?_eq_none hlen]
    simp [EnumPoint.enumValue, Point.value, h, hpg]
  · subst h0
    have hpos : 0 < p.units_state.length := List.length_pos.mpr hne
    have hlt : p.units_state.length - 1 < p.units_state.length := by omega
    obtain ⟨lbl, hlbl⟩ :
        ∃ l2, p.units_state[p.units_state.length - 1]? = some l2 :=
      ⟨_, List.getElem?_eq_getElem hlt⟩
    have hpg : pyGetElem p.units_state (-1 : Int) = some lbl := by
      rw [pyGetElem_neg _ _ (by norm_num),
        if_pos (by omega),
        show (((p.units_state.length : Int) + (-1 : Int)).toNat
            = p.units_state.length - 1) by omega,
        hlbl]
    refine ⟨lbl, ?_, ?_⟩
    · rw [List.getLast?_eq_getElem?]
      exact hlbl
    · simp [EnumPoint.enumValue, Point.value, h, hpg]

/-- Witness for C4 (amended): index 2 in the three-state table. -/
theorem enumValue_amended_witness :
    ∃ lbl, (msProps 2).units_state[((2 : Int) - 1).toNat]? = some lbl ∧
      (EnumPoint.enumValue (msProps 2) (Point.init none 0)).2
        = Except.ok lbl :=
  (enumValue_amended (msProps 2) (Point.init none 0) 2 rfl).1
    (by decide) (by decide)

/-- `write` never touches the history lists. -/
theorem write_hist_unchanged {V E : Type} (p : Props V E) (v prop : String)
    (prio : PyPriority) (s : PState V) :
    (Point.write p v prop prio s).1.histTimestamp = s.histTimestamp ∧
    (Point.write p v prop prio s).1.histValue = s.histValue := by
  cases hp : prioritySuffix prio with
  | error u => simp [Point.write, hp]
  | ok suf =>
    cases hn : p.device.network.writeRes (writeCommandString p prop v suf) with
    | some e => simp [Point.write, hp, hn]
    | none => simp [Point.write, hp, hn]

/-- `sim` never touches the history lists. -/
theorem sim_hist_unchanged {V E : Type} (p : Props V E) (v : String)
    (s : PState V) :
    (Point.sim p v s).1.histTimestamp = s.histTimestamp ∧
    (Point.sim p v s).1.histValue = s.histValue := by
  cases hn : p.device.network.simRes (simCommandString p v) with
  | some e => simp [Point.sim, hn]
  | none => simp [Point.sim, hn]

/-- `release` never touches the history lists. -/
theorem release_hist_unchanged {V E : Type} (p : Props V E) (s : PState V) :
    (Point.release p s).1.histTimestamp = s.histTimestamp ∧
    (Point.release p s).1.histValue = s.histValue := by
  cases hn : p.device.network.releaseRes (releaseCommandString p) with
  | some e => simp [Point.release, hn]
  | none => simp [Point.release, hn]

/-- `ovr` never touches the history lists. -/
theorem ovr_hist_unchanged {V E : Type} (p : Props V E) (v : String)
    (s : PState V) :
    (Point.ovr p v s).1.histTimestamp = s.histTimestamp ∧
    (Point.ovr p v s).1.histValue = s.histValue := by
  have hw := write_hist_unchanged p v "presentValue" (PyPriority.ofNum 8 "8") s
  cases hwe : Point.write p v "presentValue" (PyPriority.ofNum 8 "8") s with
  | mk s1 r =>
    rw [hwe] at hw
    cases r with
    | some e => simpa [Point.ovr, hwe] using hw
    | none => simpa [Point.ovr, hwe] using hw

/-- `auto` never touches the history lists. -/
theorem auto_hist_unchanged {V E : Type} (p : Props V E) (s : PState V) :
    (Point.auto p s).1.histTimestamp = s.histTimestamp ∧
    (Point.auto p s).1.histValue = s.histValue := by
  have hw :=
    write_hist_unchanged p "null" "presentValue" (PyPriority.ofNum 8 "8") s
  cases hwe : Point.write p "null" "presentValue" (PyPriority.ofNum 8 "8") s with
  | mk s1 r =>
    rw [hwe] at hw
    cases r with
    | some e => simpa [Point.auto, hwe] using hw
    | none => simpa [Point.auto, hwe] using hw

/-- A state whose history lists equal those of an aligned state extends
it (by nothing). -/
theorem histExtends_of_eq {V : Type} (s s' : PState V)
    (h : s.histTimestamp.length = s.histValue.length)
    (ht : s'.histTimestamp = s.histTimestamp)
    (hv : s'.histValue = s.histValue) :
    histExtends s s' :=
  ⟨by rw [ht, hv, h], ⟨[], by rw [ht, List.append_nil]⟩,
    ⟨[], by rw [hv, List.append_nil]⟩⟩

/-- C8: the two history sequences are aligned and append-only:
construction seeds exactly one sample (construction timestamp, initial
value), and every operation keeps the two sequences of equal length and
only ever appends to them, never removing entries. -/
theorem history_aligned_append_only {V E : Type} (pv : Option V) (c : Nat)
    (p : Props V E) (v prop : String) (prio : PyPriority) (s : PState V)
    (h : s.histTimestamp.length = s.histValue.length) :
    ((Point.init pv c : PState V).histTimestamp = [c] ∧
     (Point.init pv c : PState V).histValue = [pv]) ∧
    histExtends s (Point.value p s).1 ∧
    histExtends s (Point.write p v prop prio s).1 ∧
    histExtends s (Point.sim p v s).1 ∧
    histExtends s (Point.release p s).1 ∧
    histExtends s (Point.ovr p v s).1 ∧
    histExtends s (Point.auto p s).1 ∧
    histExtends s (Point.history s).2 := by
  refine ⟨⟨rfl, rfl⟩, ?_, ?_, ?_, ?_, ?_, ?_, ?_⟩
  · cases hr : p.device.read p.name with
    | error e =>
      exact histExtends_of_eq s _ h (by simp [Point.value, hr])
        (by simp [Point.value, hr])
    | ok res =>
      refine ⟨?_, ⟨[s.clock], ?_⟩, ⟨[some res], ?_⟩⟩ <;>
        simp [Point.value, hr, h]
  · exact histExtends_of_eq s _ h (write_hist_unchanged p v prop prio s).1
      (write_hist_unchanged p v prop prio s).2
  · exact histExtends_of_eq s _ h (sim_hist_unchanged p v s).1
      (sim_hist_unchanged p v s).2
  · exact histExtends_of_eq s _ h (release_hist_unchanged p s).1
      (release_hist_unchanged p s).2
  · exact histExtends_of_eq s _ h (ovr_hist_unchanged p v s).1
      (ovr_hist_unchanged p v s).2
  · exact histExtends_of_eq s _ h (auto_hist_unchanged p s).1
      (auto_hist_unchanged p s).2
  · exact histExtends_of_eq s _ h rfl rfl

/-- Witness for C8: the constructed state holds exactly the seed
sample. -/
theorem history_aligned_append_only_witness :
    (Point.init none 0 : PState String).histTimestamp = [0] ∧
    (Point.init none 0 : PState String).histValue = [none] :=
  (history_aligned_append_only none 0 avProps "21" "presentValue"
    PyPriority.empty (Point.init none 0) rfl).1

end BAC0
